import Mathlib

/-!
Shallow embedding of the arviz plotting pipeline pieces exercised by the
claims: `plot_dist` (src/arviz/plots/distplot.py), `plot_ppc` and
`_empirical_cdf` (src/arviz/plots/ppcplot.py), `plot_joint`
(src/arviz/plots/jointplot.py) and `_plot_trace_bokeh`
(src/arviz/plots/backends/bokeh/bokeh_traceplot.py).

Machine floats only carry exactly representable values in the claims at
hand, so samples and cumulative fractions are modelled as rationals.
Python exceptions are modelled by `Except` with an error datatype whose
constructors follow the spec's error taxonomy; each constructor is
annotated with the concrete Python exception it stands for.
-/

namespace Arviz

/-- Error taxonomy of the spec, mapped to the concrete Python exceptions the
source raises:
* `invalidKind` — the TypeError of distplot.py line 88 and the
  ValueError of jointplot.py line 122 (malformed `kind`);
* `insufficientSamples` — the TypeError of ppcplot.py lines 226-229
  (`num_pp_samples` out of range, message carries the limit);
* `unsupportedBackend` — the NotImplementedError of distplot.py
  lines 149-151 (unknown backend name);
* `invalidArgument` — the ValueError of jointplot.py (wrong axes length,
  wrong number of variables);
* `unboundName` — a Python NameError: an identifier resolved at run time
  that is bound neither in the module globals nor in builtins. -/
inductive PlotError where
  | invalidKind (kind : String)
  | insufficientSamples (limit : Nat)
  | unsupportedBackend (backend : String)
  | invalidArgument (msg : String)
  | unboundName (nm : String)
  deriving DecidableEq, Repr

/-- The two rendering backends plot_dist can delegate to. -/
inductive Backend where
  | matplotlib
  | bokeh
  deriving DecidableEq, Repr

/-- Numpy `dtype.kind` codes: `b` boolean, `i` signed integer, `u` unsigned
integer, `f` floating point, `c` complex floating point, `m` timedelta,
`M` datetime, `O` object, `S` byte string, `U` unicode string, `V` void. -/
inductive DTypeKind where
  | b | i | u | f | c | m | M | O | S | U | V
  deriving DecidableEq, Repr

/-- Whether a numpy dtype kind is an integer (integral) type, following
`numpy.issubdtype(-, numpy.integer)`: true exactly for the signed-integer
kind `i` and the unsigned-integer kind `u`. -/
def DTypeKind.isIntegral : DTypeKind → Bool
  | .i => true
  | .u => true
  | _ => false

/-- Python `str.lower()`, character by character. The backend names at
stake are ASCII, where Python lowercasing agrees with `Char.toLower`. -/
def pyLower (s : String) : String := ⟨s.data.map Char.toLower⟩

/-- Backend dispatch of `plot_dist`, distplot.py lines 134-151:
`None` or any string whose `.lower()` is `"mpl"` or `"matplotlib"` selects
the matplotlib backend; otherwise the exact string `"bokeh"` selects the
bokeh backend; any other string raises NotImplementedError. (The model
assumes the bokeh library itself is importable, as it is in the repo's own
bokeh backend module, so the version probe of lines 139-144 succeeds.) -/
def resolveBackend : Option String → Except PlotError Backend
  | none => Except.ok Backend.matplotlib
  | some s =>
    if pyLower s = "mpl" ∨ pyLower s = "matplotlib" then Except.ok Backend.matplotlib
    else if s = "bokeh" then Except.ok Backend.bokeh
    else Except.error (PlotError.unsupportedBackend s)

/-- The backend-agnostic plot arguments `plot_dist` assembles (distplot.py
lines 110-132), restricted to the fields the claims are about: the resolved
`kind` that is stored into `dist_plot_args`, whether `get_bins(values)` was
run while populating `hist_kwargs` (line 97, hist path only), and the
backend the arguments were delegated to. -/
structure DistPlotArgs where
  kind : String
  histBinsComputed : Bool
  backend : Backend
  deriving DecidableEq, Repr

/-- Model of `plot_dist` (distplot.py lines 87-152). Control flow in source
order: the kind validation of lines 87-88 runs first; line 91 resolves
`"auto"` to `"hist"` exactly when `values.dtype.kind == "i"` and to `"kde"`
otherwise; lines 93-108 populate `hist_kwargs` (running `get_bins`) only on
the hist path; lines 110-132 build `dist_plot_args` with the resolved kind;
lines 134-151 dispatch on the backend name. -/
def plotDist (kind : String) (dtypeKind : DTypeKind) (backend : Option String) :
    Except PlotError DistPlotArgs :=
  if ¬ (kind = "auto" ∨ kind = "kde" ∨ kind = "hist") then
    Except.error (PlotError.invalidKind kind)
  else
    let kind1 := if kind = "auto" then
        (if dtypeKind = DTypeKind.i then "hist" else "kde")
      else kind
    let bins := decide (kind1 = "hist")
    match resolveBackend backend with
    | Except.ok b => Except.ok ⟨kind1, bins, b⟩
    | Except.error e => Except.error e

/-- Case split on the outcome of backend dispatch for an explicit name. -/
theorem resolveBackend_total (s : String) :
    resolveBackend (some s) = Except.ok Backend.matplotlib ∨
    resolveBackend (some s) = Except.ok Backend.bokeh ∨
    resolveBackend (some s) = Except.error (PlotError.unsupportedBackend s) := by
  by_cases h1 : pyLower s = "mpl" ∨ pyLower s = "matplotlib"
  · left; simp [resolveBackend, h1]
  · by_cases h2 : s = "bokeh"
    · subst h2
      right; left
      simp [resolveBackend, h1]
    · right; right
      simp [resolveBackend, h1, h2]

/-- Both branches of a successful kind check lead plot_dist to return the
assembled arguments with the backend resolveBackend chose. -/
theorem plotDist_ok_of_resolve (kind : String) (dk : DTypeKind)
    (b : Option String) (bk : Backend)
    (hk : kind = "auto" ∨ kind = "kde" ∨ kind = "hist")
    (hb : resolveBackend b = Except.ok bk) :
    ∃ args, plotDist kind dk b = Except.ok args ∧ args.backend = bk := by
  refine ⟨⟨if kind = "auto" then (if dk = DTypeKind.i then "hist" else "kde") else kind,
      decide ((if kind = "auto" then (if dk = DTypeKind.i then "hist" else "kde")
        else kind) = "hist"), bk⟩, ?_, rfl⟩
  simp [plotDist, hk, hb]

/-- C1 (counterexample): an unsigned-integer array (numpy dtype kind `u`,
e.g. a `numpy.uint64` sample) has an integral element type, yet
`plot_dist(kind="auto")` resolves it to `"kde"`, not `"hist"`: line 91
compares `values.dtype.kind` with the signed-integer code `"i"` only. -/
theorem plotDist_auto_unsigned_counterexample :
    ¬ ((Except.map DistPlotArgs.kind (plotDist "auto" DTypeKind.u none) =
          Except.ok "hist") ↔ DTypeKind.isIntegral DTypeKind.u = true) := by
  intro h
  have h2 := h.mpr (by decide)
  rw [show plotDist "auto" DTypeKind.u none =
      Except.ok ⟨"kde", false, Backend.matplotlib⟩ from rfl] at h2
  exact absurd (Except.ok.inj h2) (by decide)

/-- C1 (amended): `plot_dist` with `kind="auto"` resolves the kind stored in
the plot arguments to `"hist"` exactly when the array's dtype kind is the
signed-integer code `i`, and to `"kde"` for every other dtype kind —
including the unsigned-integer kind `u`, which is also integral. -/
theorem plotDist_auto_resolution (dk : DTypeKind) :
    Except.map DistPlotArgs.kind (plotDist "auto" dk none) =
      Except.ok (if dk = DTypeKind.i then "hist" else "kde") ∧
    ((Except.map DistPlotArgs.kind (plotDist "auto" dk none) = Except.ok "hist") ↔
      dk = DTypeKind.i) := by
  cases dk <;> simp [plotDist, resolveBackend, Except.map]

/-- C5: for every `kind` outside `{"auto", "kde", "hist"}`, `plot_dist`
fails with the invalid-kind error. The error is returned uniformly in the
dtype and backend arguments — the check of lines 87-88 runs before the
hist-kwargs computation (line 97, `get_bins`) and before any plot-argument
assembly, so no density or histogram computation is reached. -/
theorem plotDist_invalid_kind (kind : String) (dk : DTypeKind)
    (backend : Option String)
    (h : ¬ (kind = "auto" ∨ kind = "kde" ∨ kind = "hist")) :
    plotDist kind dk backend = Except.error (PlotError.invalidKind kind) := by
  simp [plotDist, h]

/-- C5 witness: the misspelled kind `"histogram"` is rejected. -/
theorem plotDist_invalid_kind_witness :
    plotDist "histogram" DTypeKind.f none =
      Except.error (PlotError.invalidKind "histogram") :=
  plotDist_invalid_kind "histogram" DTypeKind.f none (by decide)

/-- C6: for any valid kind, `plot_dist` with `backend=None` succeeds and
selects the matplotlib backend; and for every explicit backend name the
call either succeeds with one of the two rendering backends (matplotlib or
bokeh) or fails with the unsupported-backend error — no other outcome
exists (distplot.py lines 134-151). -/
theorem plotDist_backend_dispatch (kind : String) (dk : DTypeKind)
    (hk : kind = "auto" ∨ kind = "kde" ∨ kind = "hist") :
    (∃ args, plotDist kind dk none = Except.ok args ∧
        args.backend = Backend.matplotlib) ∧
    (∀ s, (∃ args, plotDist kind dk (some s) = Except.ok args ∧
            (args.backend = Backend.matplotlib ∨ args.backend = Backend.bokeh)) ∨
          plotDist kind dk (some s) =
            Except.error (PlotError.unsupportedBackend s)) := by
  constructor
  · exact plotDist_ok_of_resolve kind dk none Backend.matplotlib hk rfl
  · intro s
    rcases resolveBackend_total s with h | h | h
    · left
      obtain ⟨args, ha, hb⟩ := plotDist_ok_of_resolve kind dk (some s) Backend.matplotlib hk h
      exact ⟨args, ha, Or.inl hb⟩
    · left
      obtain ⟨args, ha, hb⟩ := plotDist_ok_of_resolve kind dk (some s) Backend.bokeh hk h
      exact ⟨args, ha, Or.inr hb⟩
    · right
      simp [plotDist, hk, h]

/-- C6 witness: `backend=None` with a valid kind selects matplotlib, and the
unknown name `"plotly"` is rejected. -/
theorem plotDist_backend_dispatch_witness :
    (∃ args, plotDist "kde" DTypeKind.f none = Except.ok args ∧
        args.backend = Backend.matplotlib) ∧
    ((∃ args, plotDist "kde" DTypeKind.f (some "plotly") = Except.ok args ∧
        (args.backend = Backend.matplotlib ∨ args.backend = Backend.bokeh)) ∨
      plotDist "kde" DTypeKind.f (some "plotly") =
        Except.error (PlotError.unsupportedBackend "plotly")) :=
  ⟨(plotDist_backend_dispatch "kde" DTypeKind.f (by decide)).1,
    (plotDist_backend_dispatch "kde" DTypeKind.f (by decide)).2 "plotly"⟩

/-- C10: backend-name matching in `plot_dist` is asymmetric in case
sensitivity. The matplotlib backend is selected exactly when the lowercased
name is `"mpl"` or `"matplotlib"` (any capitalization); the bokeh backend is
selected exactly by the literal string `"bokeh"` (line 138 compares without
lowercasing); in particular `"Bokeh"` falls through to the
unsupported-backend failure. -/
theorem resolveBackend_case_asymmetry :
    (∀ s, resolveBackend (some s) = Except.ok Backend.matplotlib ↔
        (pyLower s = "mpl" ∨ pyLower s = "matplotlib")) ∧
    (∀ s, resolveBackend (some s) = Except.ok Backend.bokeh ↔ s = "bokeh") ∧
    resolveBackend (some "Bokeh") =
      Except.error (PlotError.unsupportedBackend "Bokeh") := by
  refine ⟨?_, ?_, ?_⟩
  · intro s
    by_cases h1 : pyLower s = "mpl" ∨ pyLower s = "matplotlib"
    · simp [resolveBackend, h1]
    · refine iff_of_false ?_ h1
      by_cases h2 : s = "bokeh"
      · subst h2
        simp [resolveBackend, h1]
      · simp [resolveBackend, h1, h2]
  · intro s
    by_cases h1 : pyLower s = "mpl" ∨ pyLower s = "matplotlib"
    · refine iff_of_false ?_ ?_
      · simp [resolveBackend, h1]
      · intro h
        subst h
        revert h1
        decide
    · by_cases h2 : s = "bokeh"
      · subst h2
        simp [resolveBackend, h1]
      · simp [resolveBackend, h1, h2]
  · have h1 : ¬ (pyLower "Bokeh" = "mpl" ∨ pyLower "Bokeh" = "matplotlib") := by decide
    have h2 : ("Bokeh" : String) ≠ "bokeh" := by decide
    simp [resolveBackend, h1, h2]


/-- Numpy `linspace(start, stop, num)` over rationals: `num` evenly spaced
values from `start` to `stop` inclusive; a single-point linspace holds just
`start`, and `num = 0` yields the empty array. -/
def linspace (start stop : ℚ) (num : Nat) : List ℚ :=
  if num = 1 then [start]
  else (List.range num).map fun i : ℕ =>
    start + (i : ℚ) * ((stop - start) / ((num : ℚ) - 1))

/-- Numpy `sort` of a 1-D array: the same multiset of values in ascending
order, ties kept. On rationals the ascending rearrangement is unique, so any
correct sort models it; insertion sort is used here. -/
def npSort (data : List ℚ) : List ℚ := List.insertionSort (· ≤ ·) data

/-- Model of `_empirical_cdf` (ppcplot.py lines 600-613):
`return np.sort(data), np.linspace(0, 1, len(data))`. -/
def empiricalCdf (data : List ℚ) : List ℚ × List ℚ :=
  (npSort data, linspace 0 1 data.length)

/-- Pointwise description of the fraction sequence of the empirical cdf. -/
theorem empiricalCdf_snd_get (l : List ℚ) (i : Nat) (hi : i < l.length) :
    (empiricalCdf l).2[i]? =
      some (if l.length = 1 then 0 else (i : ℚ) / ((l.length : ℚ) - 1)) := by
  unfold empiricalCdf linspace
  by_cases h1 : l.length = 1
  · have hi0 : i = 0 := by omega
    subst hi0
    simp [h1]
  · rw [if_neg h1, if_neg h1, List.getElem?_map, List.getElem?_range hi,
      Option.map_some']
    congr 1
    rw [zero_add, sub_zero, mul_one_div]

/-- C3: for every non-empty input, the empirical cdf returns the input
sorted ascending (a permutation of the input, so ties are kept, not
de-duplicated) paired with as many cumulative fractions as there are
values, the fractions being evenly spaced as `i / (n - 1)` with first
fraction 0 and (for `n ≥ 2`) last fraction 1; a singleton input gets the
single fraction 0; and on the input `[3, 1, 2]` it returns the sorted
values `[1, 2, 3]` with fractions `[0, 1/2, 1]`. -/
theorem empiricalCdf_spec (l : List ℚ) (h : l ≠ []) :
    (empiricalCdf l).1.Perm l ∧
    List.Sorted (· ≤ ·) (empiricalCdf l).1 ∧
    (empiricalCdf l).2.length = l.length ∧
    (∀ i, i < l.length → (empiricalCdf l).2[i]? =
        some (if l.length = 1 then 0 else (i : ℚ) / ((l.length : ℚ) - 1))) ∧
    (empiricalCdf l).2[0]? = some 0 ∧
    (2 ≤ l.length → (empiricalCdf l).2[l.length - 1]? = some 1) ∧
    (l.length = 1 → (empiricalCdf l).2 = [0]) ∧
    empiricalCdf [3, 1, 2] = ([1, 2, 3], [0, 1/2, 1]) := by
  have hlen : 0 < l.length := List.length_pos.mpr h
  refine ⟨List.perm_insertionSort (· ≤ ·) l, List.sorted_insertionSort (· ≤ ·) l,
    ?_, fun i hi => empiricalCdf_snd_get l i hi, ?_, ?_, ?_, ?_⟩
  · unfold empiricalCdf linspace
    by_cases h1 : l.length = 1 <;> simp [h1]
  · rw [empiricalCdf_snd_get l 0 hlen]
    by_cases h1 : l.length = 1 <;> simp [h1]
  · intro h2
    have h1 : l.length ≠ 1 := by omega
    rw [empiricalCdf_snd_get l (l.length - 1) (by omega)]
    have hcast : ((l.length - 1 : ℕ) : ℚ) = (l.length : ℚ) - 1 := by
      have : (1 : ℕ) ≤ l.length := by omega
      push_cast [this]
      ring
    have hne : ((l.length : ℚ) - 1) ≠ 0 := by
      have : (2 : ℚ) ≤ (l.length : ℚ) := by exact_mod_cast h2
      linarith
    simp [h1, hcast, div_self hne]
  · intro h1
    unfold empiricalCdf linspace
    rw [h1]
    simp
  · show (npSort [3, 1, 2], linspace 0 1 3) = ([1, 2, 3], [0, 1/2, 1])
    have hs : npSort [3, 1, 2] = [1, 2, 3] := by
      norm_num [npSort, List.insertionSort, List.orderedInsert]
    have hf : linspace 0 1 3 = [0, 1/2, 1] := by
      norm_num [linspace, List.range_succ]
    rw [hs, hf]

/-- C3 witness: the theorem instantiated at the concrete input `[3, 1, 2]`
from the spec. -/
theorem empiricalCdf_spec_witness :
    (empiricalCdf [3, 1, 2]).1.Perm [3, 1, 2] ∧
    empiricalCdf [3, 1, 2] = ([1, 2, 3], [0, 1/2, 1]) :=
  ⟨(empiricalCdf_spec [3, 1, 2] (by simp)).1,
    (empiricalCdf_spec [3, 1, 2] (by simp)).2.2.2.2.2.2.2⟩

/-- C7: the empirical cdf is a pure function (identical inputs give
identical outputs, so two runs on the same input agree), and it is
idempotent under re-sorting: applying it to its own sorted first component
gives exactly the output for the original input. -/
theorem empiricalCdf_resort_idempotent (l : List ℚ) :
    empiricalCdf l = empiricalCdf l ∧
    empiricalCdf ((empiricalCdf l).1) = empiricalCdf l := by
  refine ⟨rfl, ?_⟩
  show empiricalCdf (npSort l) = empiricalCdf l
  unfold empiricalCdf
  have h1 : npSort (npSort l) = npSort l :=
    List.Sorted.insertionSort_eq (List.sorted_insertionSort (· ≤ ·) l)
  have h2 : (npSort l).length = l.length := List.length_insertionSort (· ≤ ·) l
  rw [h1, h2]


/-- Total number of posterior-predictive replicate draws:
`posterior_predictive.sizes["chain"] * posterior_predictive.sizes["draw"]`
(ppcplot.py line 214). -/
def totalPpSamples (chains draws : Nat) : Nat := chains * draws

/-- Validation of `num_pp_samples` (ppcplot.py lines 221-229): any value
below 1 or above the total replicate count raises the insufficient-samples
failure (a TypeError whose message carries the limit). The model takes the
argument as an integer, i.e. after the `isinstance(num_pp_samples,
Integral)` part of the test has passed. -/
def checkNumPpSamples (numPpSamples : Int) (total : Nat) : Except PlotError Unit :=
  if numPpSamples < 1 ∨ (total : Int) < numPpSamples then
    Except.error (PlotError.insufficientSamples total)
  else Except.ok ()

/-- Model of `np.random.choice(total, size=num, replace=False)` (ppcplot.py
line 231): the generator state is abstracted as a permutation `perm` of
`0, ..., total - 1` (hypothesised where used); sampling `num` indices
without replacement takes the first `num` entries of that permutation. -/
def npRandomChoiceNoReplace (perm : List Nat) (num : Nat) : List Nat :=
  perm.take num

/-- C2: with c chains and d draws of posterior-predictive data,
`plot_ppc` rejects `num_pp_samples` greater than `c * d` with the
insufficient-samples error, while `num_pp_samples = c * d` passes
validation and the subsample is the whole permutation: it contains every
replicate index `0, ..., c * d - 1` with no index twice. -/
theorem plotPpc_num_pp_samples (chains draws : Nat) (perm : List Nat)
    (hc : 0 < chains) (hd : 0 < draws)
    (hperm : perm.Perm (List.range (totalPpSamples chains draws))) :
    (∀ num : Int, (totalPpSamples chains draws : Int) < num →
        checkNumPpSamples num (totalPpSamples chains draws) =
          Except.error (PlotError.insufficientSamples (totalPpSamples chains draws))) ∧
    checkNumPpSamples (totalPpSamples chains draws) (totalPpSamples chains draws) =
      Except.ok () ∧
    npRandomChoiceNoReplace perm (totalPpSamples chains draws) = perm ∧
    (npRandomChoiceNoReplace perm (totalPpSamples chains draws)).Perm
      (List.range (totalPpSamples chains draws)) ∧
    (npRandomChoiceNoReplace perm (totalPpSamples chains draws)).Nodup := by
  have htot : 0 < totalPpSamples chains draws := Nat.mul_pos hc hd
  have hlen : perm.length = totalPpSamples chains draws := by
    rw [hperm.length_eq, List.length_range]
  have htake : npRandomChoiceNoReplace perm (totalPpSamples chains draws) = perm := by
    rw [npRandomChoiceNoReplace, ← hlen, List.take_length]
  refine ⟨?_, ?_, htake, ?_, ?_⟩
  · intro num hnum
    unfold checkNumPpSamples
    rw [if_pos (Or.inr hnum)]
  · unfold checkNumPpSamples
    rw [if_neg]
    push_neg
    refine ⟨?_, le_refl _⟩
    exact_mod_cast htot
  · rw [htake]
    exact hperm
  · rw [htake]
    exact hperm.nodup_iff.mpr (List.nodup_range _)

/-- C2 witness: 2 chains and 3 draws give 6 replicate draws; asking for 7
fails, while asking for all 6 returns each of the indices 0..5 once. -/
theorem plotPpc_num_pp_samples_witness :
    checkNumPpSamples 7 (totalPpSamples 2 3) =
      Except.error (PlotError.insufficientSamples (totalPpSamples 2 3)) ∧
    (npRandomChoiceNoReplace (List.range (totalPpSamples 2 3))
      (totalPpSamples 2 3)).Perm (List.range (totalPpSamples 2 3)) :=
  ⟨(plotPpc_num_pp_samples 2 3 (List.range (totalPpSamples 2 3)) (by decide) (by decide)
      (List.Perm.refl _)).1 7 (by decide),
    (plotPpc_num_pp_samples 2 3 (List.range (totalPpSamples 2 3)) (by decide) (by decide)
      (List.Perm.refl _)).2.2.2.1⟩

/-- Indices into `a` of the elements that occur in `b`: the model of
`np.where(np.in1d(a, b))[0]` (ppcplot.py line 234), where `a` is the
observed dataset's coordinate-label array for one dimension and `b` the
labels the caller requested. -/
def in1dIndices (a b : List String) : List Nat :=
  (a.enum.filter fun p => decide (p.2 ∈ b)).map Prod.fst

/-- Model of the coords-rewriting loop of `plot_ppc` (ppcplot.py lines
233-234): iterating over the keys of the caller's `coords` dict, each
key's value is reassigned (in the same dict object, hence visibly to the
caller) to the integer index positions of the requested labels inside the
observed dataset's labels for that dimension. -/
def ppcUpdateCoords (observedCoords : String → List String)
    (coords : List (String × List String)) : List (String × List Nat) :=
  coords.map fun kv => (kv.1, in1dIndices (observedCoords kv.1) kv.2)

/-- Membership in the index list produced by the in1d/where combination. -/
theorem mem_in1dIndices (a b : List String) (i : Nat) :
    i ∈ in1dIndices a b ↔ ∃ hi : i < a.length, a.get ⟨i, hi⟩ ∈ b := by
  unfold in1dIndices
  simp only [List.mem_map, List.mem_filter, decide_eq_true_eq]
  constructor
  · rintro ⟨⟨j, x⟩, ⟨hmem, hfil⟩, rfl⟩
    have hx : a[j]? = some x := List.mk_mem_enum_iff_getElem?.mp hmem
    rw [List.getElem?_eq_some] at hx
    obtain ⟨hj, hget⟩ := hx
    refine ⟨hj, ?_⟩
    rw [List.get_eq_getElem, hget]
    exact hfil
  · rintro ⟨hi, hmem⟩
    refine ⟨(i, a.get ⟨i, hi⟩), ⟨?_, hmem⟩, rfl⟩
    rw [List.mk_mem_enum_iff_getElem?, List.getElem?_eq_some]
    exact ⟨hi, (List.get_eq_getElem a ⟨i, hi⟩).symm⟩

/-- C9: the coords dict the caller passes to `plot_ppc` is mutated in
place before plotting: afterwards it still has the same keys in the same
order, but each key's value has been replaced by the list of integer index
positions — positions `i` (valid indices into the observed coordinate
labels of that dimension) whose label belongs to the originally requested
labels — rather than the coordinate labels the caller supplied. -/
theorem plotPpc_mutates_coords (observedCoords : String → List String)
    (coords : List (String × List String)) (h : coords ≠ []) :
    ppcUpdateCoords observedCoords coords ≠ [] ∧
    (ppcUpdateCoords observedCoords coords).map Prod.fst = coords.map Prod.fst ∧
    (∀ kv, kv ∈ coords → (kv.1, in1dIndices (observedCoords kv.1) kv.2) ∈
        ppcUpdateCoords observedCoords coords) ∧
    (∀ kv, kv ∈ coords → ∀ i,
        i ∈ in1dIndices (observedCoords kv.1) kv.2 ↔
          ∃ hi : i < (observedCoords kv.1).length,
            (observedCoords kv.1).get ⟨i, hi⟩ ∈ kv.2) := by
  refine ⟨?_, ?_, ?_, ?_⟩
  · simp [ppcUpdateCoords, h]
  · simp [ppcUpdateCoords, List.map_map, Function.comp]
  · intro kv hkv
    exact List.mem_map.mpr ⟨kv, hkv, rfl⟩
  · intro kv _ i
    exact mem_in1dIndices (observedCoords kv.1) kv.2 i

/-- C9 witness: one requested dimension with labels `["b", "z"]` against
observed labels `["a", "b", "c"]` keeps the key and replaces the value. -/
theorem plotPpc_mutates_coords_witness :
    (ppcUpdateCoords (fun _ => ["a", "b", "c"]) [("school", ["b", "z"])]).map Prod.fst =
      [("school", ["b", "z"])].map Prod.fst :=
  (plotPpc_mutates_coords (fun _ => ["a", "b", "c"]) [("school", ["b", "z"])]
    (by simp)).2.1

/-- Panels plot_joint draws once validation passes (jointplot.py lines
182-193): the central joint panel in the requested kind, then the top and
right marginal distributions. -/
inductive JointDraw where
  | scatterJoint
  | kdeJoint
  | hexbinJoint
  | marginalTop
  | marginalRight
  deriving DecidableEq, Repr

/-- Draw sequence of a successful plot_joint call. -/
def jointDraws (kind : String) : List JointDraw :=
  (if kind = "scatter" then [JointDraw.scatterJoint]
   else if kind = "kde" then [JointDraw.kdeJoint]
   else [JointDraw.hexbinJoint]) ++ [JointDraw.marginalTop, JointDraw.marginalRight]

/-- Skeleton of `plot_joint` (jointplot.py lines 119-198), in source order:
the kind validation of lines 120-124, the two-variables check of lines
135-138, then the axes resolution of lines 150-164 — `ax=None` creates a
fresh (joint, top, right) triple, an explicit `ax` of length 3 is unpacked
as `axjoin, ax_hist_x, ax_hist_y = ax`, and any other length raises
ValueError before any axis is touched; only after that do the drawing calls
of lines 166-196 run. The axis handle type `Ax` is abstract, and
`freshAxes` stands for the triple lines 152-160 would create. -/
def plotJoint (Ax : Type) (freshAxes : Ax × Ax × Ax) (kind : String)
    (numPlotters : Nat) (ax : Option (List Ax)) :
    Except PlotError ((Ax × Ax × Ax) × List JointDraw) :=
  if ¬ (kind = "scatter" ∨ kind = "kde" ∨ kind = "hexbin") then
    Except.error (PlotError.invalidKind kind)
  else if numPlotters ≠ 2 then
    Except.error (PlotError.invalidArgument "Number of variables to be plotted must 2")
  else
    match ax with
    | none => Except.ok (freshAxes, jointDraws kind)
    | some l =>
      if h3 : l.length = 3 then
        Except.ok ((l.get ⟨0, by omega⟩, l.get ⟨1, by omega⟩, l.get ⟨2, by omega⟩),
          jointDraws kind)
      else Except.error (PlotError.invalidArgument "ax must be of lenght 3")

/-- C8: a joint-plot call with a valid kind and two variables to plot
fails with the invalid-argument (wrong axes length) error for every
explicit axes list whose length is not 3 — returning no axes and no drawn
panels — and unpacks an axes list of length exactly 3 into the (joint,
top, right) triple in that order. -/
theorem plotJoint_axes_length (Ax : Type) (freshAxes : Ax × Ax × Ax) (kind : String)
    (hk : kind = "scatter" ∨ kind = "kde" ∨ kind = "hexbin") :
    (∀ l : List Ax, l.length ≠ 3 →
        plotJoint Ax freshAxes kind 2 (some l) =
          Except.error (PlotError.invalidArgument "ax must be of lenght 3")) ∧
    (∀ l : List Ax, ∀ h3 : l.length = 3,
        plotJoint Ax freshAxes kind 2 (some l) =
          Except.ok ((l.get ⟨0, by omega⟩, l.get ⟨1, by omega⟩, l.get ⟨2, by omega⟩),
            jointDraws kind)) := by
  constructor
  · intro l hl
    simp [plotJoint, hk, hl]
  · intro l h3
    simp [plotJoint, hk, h3]

/-- C8 witness: a length-2 axes list is rejected, a length-3 axes list is
unpacked in order. -/
theorem plotJoint_axes_length_witness :
    plotJoint Nat (7, 8, 9) "scatter" 2 (some [4, 5]) =
      Except.error (PlotError.invalidArgument "ax must be of lenght 3") ∧
    plotJoint Nat (7, 8, 9) "scatter" 2 (some [4, 5, 6]) =
      Except.ok ((4, 5, 6), jointDraws "scatter") :=
  ⟨(plotJoint_axes_length Nat (7, 8, 9) "scatter" (Or.inl rfl)).1 [4, 5] (by decide),
    (plotJoint_axes_length Nat (7, 8, 9) "scatter" (Or.inl rfl)).2 [4, 5, 6] (by decide)⟩

/-- Model of the subplot-limit handling of `_plot_trace_bokeh`
(bokeh_traceplot.py lines 160-170). `maxSubplotsRc` is
`rcParams["plot.max_subplots"]`, with `none` for an unset (None) value,
which line 162 replaces by the number of plotters. When the number of
plotter triples exceeds the limit, line 164 evaluates `warnings.warn(...)`
— but bokeh_traceplot.py never imports the `warnings` module (its imports
are bokeh, itertools, matplotlib, numpy and four intra-package modules),
so resolving the name `warnings` fails and Python raises NameError instead
of emitting the warning; the truncation `plotters = plotters[:max_plots]`
of line 170 and the rest of the call are never reached. Within the limit
the full plotter list is kept and the call proceeds. -/
def bokehTraceTruncatePlotters (A : Type) (plotters : List A)
    (maxSubplotsRc : Option Nat) : Except PlotError (List A) :=
  let maxPlots := match maxSubplotsRc with
    | none => plotters.length
    | some m => m
  if plotters.length > maxPlots then
    Except.error (PlotError.unboundName "warnings")
  else Except.ok plotters

/-- C4 (code bug): with two plotter triples and a configured
maximum-subplot limit of one, the bokeh trace-plot routine neither warns
nor truncates-and-completes as documented: it fails with a NameError,
because the `warnings` module whose `warn` it calls is never imported. -/
theorem bokehTrace_truncation_failure :
    bokehTraceTruncatePlotters Nat [0, 1] (some 1) =
      Except.error (PlotError.unboundName "warnings") := rfl

end Arviz
